import Mathlib

/-!
Shallow embedding of `src/provider_client.py` (NUSA Compute provider client).

External effects are made explicit:
* the GPUtil probe is an `Except Unit (List GPU)` value (`Except.error` models the
  probe raising; `Except.ok` models the list returned by `GPUtil.getGPUs()`);
* the Supabase client is modelled by per-attempt outcome oracles
  (`true` = call returns, `false` = call raises) plus an event trace recording
  every registry call and every `time.sleep`;
* the identity file is an `Option String` (contents when it exists);
* wall-clock timestamps are an abstract `clock : Nat -> String`.

Numeric values that are Python floats (GPU load, memory totals) are embedded
as rationals; `int(...)` is truncation toward zero, `round(x, 2)` is
round-half-to-even at two decimal places.
-/

namespace NusaCompute

/-- Configuration constant `HEARTBEAT_INTERVAL = 60` from the source. -/
def HEARTBEAT_INTERVAL : Nat := 60

/-- Configuration constant `MAX_RETRIES = 3` from the source. -/
def MAX_RETRIES : Nat := 3

/-- Configuration constant `RETRY_DELAYS = [1, 2, 4]` from the source. -/
def RETRY_DELAYS : List Nat := [1, 2, 4]

/-- Configuration constant `TABLE_NAME = "nodes"` from the source. -/
def TABLE_NAME : String := "nodes"

/-- One entry of the list returned by `GPUtil.getGPUs()`: the fields the
source reads (`name`, `memoryTotal`, `driver`, `load`). -/
structure GPU where
  name : String
  memoryTotal : ℚ
  driver : String
  load : ℚ
deriving DecidableEq

/-- Python `int(...)` on a rational: truncation toward zero. -/
def truncInt (q : ℚ) : Int := if 0 ≤ q then ⌊q⌋ else ⌈q⌉

/-- The `GPUInfo` container class of the source. -/
structure GPUInfo where
  name : String
  vram_total : Int
  driver_version : String
  load : ℚ
deriving DecidableEq

/-- Function `detect_gpu()`: returns metadata of the first GPU, or `None` when the
probe raises or returns an empty list. -/
def detect_gpu : Except Unit (List GPU) → Option GPUInfo
  | Except.error _ => none
  | Except.ok [] => none
  | Except.ok (g :: _) => some (GPUInfo.mk g.name (truncInt g.memoryTotal) g.driver (g.load * 100))

/-- Function `get_current_gpu_load()`: first GPU's load as a percentage, collapsing a
raising probe or an empty GPU list to `0.0`. -/
def get_current_gpu_load : Except Unit (List GPU) → ℚ
  | Except.ok (g :: _) => g.load * 100
  | Except.ok [] => 0
  | Except.error _ => 0

/-- Python `round(q, 2)`: round half to even at two decimal places. -/
def pyRound2 (q : ℚ) : ℚ :=
  let s := q * 100
  let f := ⌊s⌋
  let r := s - (f : ℚ)
  let i : Int :=
    if r < 1/2 then f
    else if 1/2 < r then f + 1
    else if Even f then f else f + 1
  (i : ℚ) / 100

/-- Python `str.strip()`: drop whitespace from both ends of the string. -/
def pyStrip (s : String) : String :=
  String.mk (((s.data.dropWhile Char.isWhitespace).reverse.dropWhile Char.isWhitespace).reverse)

/-- Function `get_or_create_node_id()`: read the trimmed id file if present and
non-empty; otherwise generate a fresh id (`freshId`, the uuid5 value the
source computes) and try to persist it.  Arguments: `file` is the id file's
contents when it exists, `readOk` is whether `read_text` succeeds, `writeOk`
is whether `write_text` succeeds.  Returns the node id, the id file state
afterwards, and a trace of attempted id-file writes. -/
def get_or_create_node_id (file : Option String) (readOk : Bool) (writeOk : Bool)
    (freshId : String) : String × Option String × List String :=
  match file with
  | some content =>
      if readOk ∧ pyStrip content ≠ "" then (pyStrip content, some content, [])
      else (freshId, if writeOk then some freshId else some content, [freshId])
  | none => (freshId, if writeOk then some freshId else none, [freshId])

/-- Python truthiness of `os.getenv` results: `None` and `""` are falsy. -/
def truthy : Option String → Bool
  | none => false
  | some s => s ≠ ""

/-- Function `init_supabase()`: returns `None` when `SUPABASE_URL` / `SUPABASE_KEY` are unset
or empty, when either is its template placeholder, or when `create_client`
raises (`createOk = false`). -/
def init_supabase (url key : Option String) (createOk : Bool) : Option Unit :=
  if ¬ truthy url ∨ ¬ truthy key then none
  else if url = some "your_supabase_url_here" ∨ key = some "your_supabase_anon_key_here" then none
  else if createOk then some () else none

/-- The dict payload built by `send_heartbeat` (its exact keys). -/
structure HeartbeatData where
  node_id : String
  gpu_name : String
  vram_total : Int
  current_load : ℚ
  status : String
  last_seen : String
deriving DecidableEq

/-- The fields dict passed by `update_status_offline` to `.update(...)`. -/
structure OfflinePatch where
  status : String
  last_seen : String
deriving DecidableEq

/-- Observable effects of the client: an upsert call
(`client.table(tbl).upsert(data, on_conflict=key)`), an update call
(`client.table(tbl).update(patch).eq("node_id", key)`), and a `time.sleep`. -/
inductive Ev where
  | upsert (tbl : String) (d : HeartbeatData) (onConflict : String)
  | update (tbl : String) (p : OfflinePatch) (key : String)
  | sleep (secs : Nat)
deriving DecidableEq

/-- The payload dict of `send_heartbeat`, built once per tick before the
retry loop. -/
def heartbeatData (probe : Except Unit (List GPU)) (node_id : String)
    (gpu_info : GPUInfo) (status : String) (now : String) : HeartbeatData :=
  HeartbeatData.mk node_id gpu_info.name gpu_info.vram_total
    (pyRound2 (get_current_gpu_load probe)) status now

/-- The `for attempt in range(MAX_RETRIES)` retry loop of `send_heartbeat`:
`res attempt = true` means the upsert call for that attempt returns,
`false` means it raises.  Each iteration emits the upsert attempt; a failed
non-final attempt sleeps `RETRY_DELAYS[attempt]` and continues; a failed
final attempt returns `False`. -/
def retryLoop (res : Nat → Bool) (d : HeartbeatData) : List Nat → Bool × List Ev
  | [] => (false, [])
  | attempt :: rest =>
      if res attempt then (true, [Ev.upsert TABLE_NAME d "node_id"])
      else if attempt < MAX_RETRIES - 1 then
        let r := retryLoop res d rest
        (r.1, Ev.upsert TABLE_NAME d "node_id" :: Ev.sleep (RETRY_DELAYS.getD attempt 0) :: r.2)
      else (false, [Ev.upsert TABLE_NAME d "node_id"])

/-- Function `send_heartbeat(client, node_id, gpu_info, status)`: sample the load,
build the payload, run the retry loop.  Returns the boolean result and the
trace of registry calls and sleeps. -/
def send_heartbeat (res : Nat → Bool) (probe : Except Unit (List GPU))
    (node_id : String) (gpu_info : GPUInfo) (status : String) (now : String) :
    Bool × List Ev :=
  retryLoop res (heartbeatData probe node_id gpu_info status now) (List.range MAX_RETRIES)

/-- The event issued by `update_status_offline(client, node_id)`: a single
update of `{status: "offline", last_seen: now}` filtered on `node_id`.
The source wraps the call in try/except, so its failure is only logged. -/
def update_status_offline (node_id : String) (now : String) : Ev :=
  Ev.update TABLE_NAME (OfflinePatch.mk "offline" now) node_id

/-- Per-run environment: everything the process observes from outside. -/
structure Env where
  startupProbe : Except Unit (List GPU)
  loadProbe : Nat → Except Unit (List GPU)
  upsertOk : Nat → Nat → Bool
  updateOk : Bool
  file : Option String
  readOk : Bool
  writeOk : Bool
  freshId : String
  url : Option String
  key : Option String
  createOk : Bool
  clock : Nat → String

/-- One tick of the heartbeat loop: `send_heartbeat(..., status="online")`
with tick `i`'s fresh load sample, upsert outcomes and timestamp. -/
def tickRun (env : Env) (node_id : String) (gpu_info : GPUInfo) (i : Nat) :
    Bool × List Ev :=
  send_heartbeat (env.upsertOk i) (env.loadProbe i) node_id gpu_info "online" (env.clock i)

/-- Function `run_heartbeat_loop(client, node_id, gpu_info)` under a stop signal that
arrives during the inter-tick `time.sleep` after `n` completed ticks: each
completed tick sends a heartbeat then starts the interval sleep; the
`KeyboardInterrupt` handler then calls `update_status_offline` once
(regardless of whether that update call raises — it is caught and logged)
and calls `sys.exit(0)`.  Returns the event trace and the exit status. -/
def run_heartbeat_loop (env : Env) (node_id : String) (gpu_info : GPUInfo)
    (n : Nat) : List Ev × Nat :=
  ((List.range n).flatMap
      (fun i => (tickRun env node_id gpu_info i).2 ++ [Ev.sleep HEARTBEAT_INTERVAL])
    ++ [update_status_offline node_id (env.clock n)], 0)

/-- Function `main()`, with the stop signal arriving after `n` inter-tick sleeps:
detect the GPU (exit 1 when `None`), resolve the node id, initialise the
Supabase client (exit 1 when `None`), then run the heartbeat loop.  Returns
the registry/sleep event trace, the trace of attempted id-file writes, and
the exit status. -/
def main (env : Env) (n : Nat) : List Ev × List String × Nat :=
  match detect_gpu env.startupProbe with
  | none => ([], [], 1)
  | some gpu_info =>
      let idr := get_or_create_node_id env.file env.readOk env.writeOk env.freshId
      match init_supabase env.url env.key env.createOk with
      | none => ([], idr.2.2, 1)
      | some _ =>
          let hr := run_heartbeat_loop env idr.1 gpu_info n
          (hr.1, idr.2.2, hr.2)

/-- A keyed registry (the `nodes` table), one record per `node_id`. -/
def Registry : Type := String → Option HeartbeatData

/-- Modelled from the spec: the registry's update-by-key semantics (§4.3,
§6) applied to the patch sent by `update_status_offline` — rows whose
`node_id` matches the filter get exactly the patched fields replaced, all
other rows and fields are untouched, and a missing key is a no-op.  The
remote table's behaviour is not part of the repository's code. -/
def applyUpdate (reg : Registry) (p : OfflinePatch) (key : String) : Registry :=
  fun k =>
    match reg k with
    | some r =>
        if k = key then
          some (HeartbeatData.mk r.node_id r.gpu_name r.vram_total r.current_load p.status p.last_seen)
        else some r
    | none => none

/-- Is an event a registry write attempt (upsert or update)? -/
def isRegistryCall : Ev → Bool
  | Ev.upsert _ _ _ => true
  | Ev.update _ _ _ => true
  | Ev.sleep _ => false

/-- Is an event an update call? -/
def isUpdate : Ev → Bool
  | Ev.update _ _ _ => true
  | _ => false

/-- Is an event an upsert call? -/
def isUpsert : Ev → Bool
  | Ev.upsert _ _ _ => true
  | _ => false

/-- A concrete `GPUInfo` used to instantiate theorems with hypotheses. -/
def gpuInfoW : GPUInfo := GPUInfo.mk "GeForce RTX 3080" 10240 "550.54" 0

/-- C1: with a registry client whose upsert raises on every call, a single
`send_heartbeat` tick makes exactly 3 upsert attempts, sleeping 1 time-unit
before the 2nd attempt and 2 time-units before the 3rd, then returns
failure for the tick without raising. -/
theorem retry_bound_on_total_failure (res : Nat → Bool) (probe : Except Unit (List GPU))
    (node_id : String) (gpu_info : GPUInfo) (now : String) (h : ∀ k, res k = false) :
    send_heartbeat res probe node_id gpu_info "online" now =
      (false,
       [Ev.upsert TABLE_NAME (heartbeatData probe node_id gpu_info "online" now) "node_id",
        Ev.sleep 1,
        Ev.upsert TABLE_NAME (heartbeatData probe node_id gpu_info "online" now) "node_id",
        Ev.sleep 2,
        Ev.upsert TABLE_NAME (heartbeatData probe node_id gpu_info "online" now) "node_id"]) := by
  have hr : List.range MAX_RETRIES = [0, 1, 2] := rfl
  rw [send_heartbeat, hr]
  simp [retryLoop, h, MAX_RETRIES, RETRY_DELAYS]

theorem retry_bound_on_total_failure_witness :
    (∀ k, (fun _ : Nat => false) k = false) ∧
    send_heartbeat (fun _ => false) (Except.ok []) "node-1" gpuInfoW "online" "t0" =
      (false,
       [Ev.upsert TABLE_NAME (heartbeatData (Except.ok []) "node-1" gpuInfoW "online" "t0") "node_id",
        Ev.sleep 1,
        Ev.upsert TABLE_NAME (heartbeatData (Except.ok []) "node-1" gpuInfoW "online" "t0") "node_id",
        Ev.sleep 2,
        Ev.upsert TABLE_NAME (heartbeatData (Except.ok []) "node-1" gpuInfoW "online" "t0") "node_id"]) :=
  ⟨fun _ => rfl,
   retry_bound_on_total_failure (fun _ => false) (Except.ok []) "node-1" gpuInfoW "t0"
     (fun _ => rfl)⟩

/-- C2: with a registry client whose upsert raises on attempts 1 and 2 of a
tick but returns on attempt 3, `send_heartbeat` returns success for the
tick and makes no further upsert attempts within it (exactly 3 in total). -/
theorem recovery_on_third_attempt (res : Nat → Bool) (probe : Except Unit (List GPU))
    (node_id : String) (gpu_info : GPUInfo) (now : String)
    (h0 : res 0 = false) (h1 : res 1 = false) (h2 : res 2 = true) :
    send_heartbeat res probe node_id gpu_info "online" now =
      (true,
       [Ev.upsert TABLE_NAME (heartbeatData probe node_id gpu_info "online" now) "node_id",
        Ev.sleep 1,
        Ev.upsert TABLE_NAME (heartbeatData probe node_id gpu_info "online" now) "node_id",
        Ev.sleep 2,
        Ev.upsert TABLE_NAME (heartbeatData probe node_id gpu_info "online" now) "node_id"]) := by
  have hr : List.range MAX_RETRIES = [0, 1, 2] := rfl
  rw [send_heartbeat, hr]
  simp [retryLoop, h0, h1, h2, MAX_RETRIES, RETRY_DELAYS]

theorem recovery_on_third_attempt_witness :
    ((fun k : Nat => k == 2) 0 = false ∧ (fun k : Nat => k == 2) 1 = false ∧
      (fun k : Nat => k == 2) 2 = true) ∧
    send_heartbeat (fun k => k == 2) (Except.ok []) "node-1" gpuInfoW "online" "t0" =
      (true,
       [Ev.upsert TABLE_NAME (heartbeatData (Except.ok []) "node-1" gpuInfoW "online" "t0") "node_id",
        Ev.sleep 1,
        Ev.upsert TABLE_NAME (heartbeatData (Except.ok []) "node-1" gpuInfoW "online" "t0") "node_id",
        Ev.sleep 2,
        Ev.upsert TABLE_NAME (heartbeatData (Except.ok []) "node-1" gpuInfoW "online" "t0") "node_id"]) :=
  ⟨⟨rfl, rfl, rfl⟩,
   recovery_on_third_attempt (fun k => k == 2) (Except.ok []) "node-1" gpuInfoW "t0"
     rfl rfl rfl⟩

/-- C3: after a run whose identity resolution generated a fresh identifier
and successfully persisted it (`writeOk = true`, and the read path did not
return: the file was absent, unreadable, or empty after trim), the call
returns that identifier and leaves it in the file, and every subsequent
call on the persisted file — in particular a fresh-process restart with a
succeeding read — returns exactly the same identifier string and leaves the
file unchanged; hence resolving twice in sequence yields identical values. -/
theorem node_id_persistence_roundtrip (file₀ : Option String) (r₀ : Bool) (freshId : String)
    (hid : pyStrip freshId = freshId) (hne : freshId ≠ "")
    (hgen : ∀ c, file₀ = some c → ¬(r₀ = true ∧ pyStrip c ≠ "")) :
    (get_or_create_node_id file₀ r₀ true freshId).1 = freshId ∧
    (get_or_create_node_id file₀ r₀ true freshId).2.1 = some freshId ∧
    ∀ w g, (get_or_create_node_id (some freshId) true w g).1 = freshId ∧
           (get_or_create_node_id (some freshId) true w g).2.1 = some freshId := by
  have hsub : ∀ w g, (get_or_create_node_id (some freshId) true w g).1 = freshId ∧
      (get_or_create_node_id (some freshId) true w g).2.1 = some freshId := by
    intro w g
    constructor <;> simp [get_or_create_node_id, hid, hne]
  cases file₀ with
  | none => exact ⟨rfl, rfl, hsub⟩
  | some c =>
      have hc := hgen c rfl
      constructor
      · simp [get_or_create_node_id, hc]
      · exact ⟨by simp [get_or_create_node_id, hc], hsub⟩

theorem node_id_persistence_roundtrip_witness :
    (pyStrip "id-abc" = "id-abc" ∧ "id-abc" ≠ "" ∧
      (∀ c, (none : Option String) = some c → ¬(true = true ∧ pyStrip c ≠ ""))) ∧
    (get_or_create_node_id none true true "id-abc").1 = "id-abc" ∧
    (get_or_create_node_id none true true "id-abc").2.1 = some "id-abc" ∧
    ∀ w g, (get_or_create_node_id (some "id-abc") true w g).1 = "id-abc" ∧
           (get_or_create_node_id (some "id-abc") true w g).2.1 = some "id-abc" :=
  ⟨⟨rfl, by decide, fun c hc => by cases hc⟩,
   node_id_persistence_roundtrip none true "id-abc" rfl (by decide) (fun c hc => by cases hc)⟩

/-- C10: an identity file that exists but is only whitespace (empty after
trim) is treated exactly like an absent file: the same fresh identifier is
returned as for an absent file, and when the write succeeds the existing
file is overwritten with the new value. -/
theorem whitespace_id_file_regenerates (c : String) (hc : pyStrip c = "") (r w : Bool) (g : String) :
    (get_or_create_node_id (some c) true w g).1 = (get_or_create_node_id none r w g).1 ∧
    (get_or_create_node_id (some c) true w g).1 = g ∧
    (get_or_create_node_id (some c) true true g).2.1 = some g := by
  refine ⟨?_, ?_, ?_⟩ <;> simp [get_or_create_node_id, hc]

theorem whitespace_id_file_regenerates_witness :
    pyStrip "  " = "" ∧
    (get_or_create_node_id (some "  ") true false "id-xyz").1 =
      (get_or_create_node_id none false false "id-xyz").1 ∧
    (get_or_create_node_id (some "  ") true false "id-xyz").1 = "id-xyz" ∧
    (get_or_create_node_id (some "  ") true true "id-xyz").2.1 = some "id-xyz" :=
  ⟨rfl, whitespace_id_file_regenerates "  " rfl false false "id-xyz"⟩

/-- Helper: every branch of `init_supabase` other than the final success
returns `none`, so any of the failure conditions yields `none`. -/
theorem init_supabase_none (url key : Option String) (createOk : Bool)
    (h : truthy url = false ∨ truthy key = false ∨
         url = some "your_supabase_url_here" ∨ key = some "your_supabase_anon_key_here" ∨
         createOk = false) :
    init_supabase url key createOk = none := by
  unfold init_supabase
  split
  · rfl
  · split
    · rfl
    · rename_i h1 h2
      simp only [not_or, not_not] at h1
      simp only [not_or] at h2
      have hc : createOk = false := by
        rcases h with h | h | h | h | h
        · rw [h] at h1; exact absurd h1.1 (by simp)
        · rw [h] at h1; exact absurd h1.2 (by simp)
        · exact absurd h h2.1
        · exact absurd h h2.2
        · exact h
      simp [hc]

/-- C7: the load-sampling operation never raises to its caller — on every
internal failure (the probe raising, or no device found) it returns `0.0`,
so a tick whose load sample fails builds a record with `current_load = 0.0`
instead of propagating an error. -/
theorem load_sample_degrades_to_zero (probe : Except Unit (List GPU))
    (node_id : String) (gpu_info : GPUInfo) (status now : String)
    (h : probe = Except.error () ∨ probe = Except.ok []) :
    get_current_gpu_load probe = 0 ∧
    (heartbeatData probe node_id gpu_info status now).current_load = 0 := by
  have h0 : get_current_gpu_load probe = 0 := by
    rcases h with h | h <;> subst h <;> rfl
  refine ⟨h0, ?_⟩
  have hr : pyRound2 0 = 0 := by norm_num [pyRound2]
  simp [heartbeatData, h0, hr]

theorem load_sample_degrades_to_zero_witness :
    ((Except.error () : Except Unit (List GPU)) = Except.error () ∨
      (Except.error () : Except Unit (List GPU)) = Except.ok []) ∧
    get_current_gpu_load (Except.error ()) = 0 ∧
    (heartbeatData (Except.error ()) "node-1" gpuInfoW "online" "t0").current_load = 0 :=
  ⟨Or.inl rfl,
   load_sample_degrades_to_zero (Except.error ()) "node-1" gpuInfoW "online" "t0" (Or.inl rfl)⟩

/-- C4: when capability detection returns `None`, the process exits with
status 1 (non-zero) having attempted no registry call and written no
identity file. -/
theorem no_gpu_fatal_exit (env : Env) (n : Nat) (h : detect_gpu env.startupProbe = none) :
    (main env n).2.2 = 1 ∧ (main env n).1 = [] ∧ (main env n).2.1 = [] := by
  unfold main
  rw [h]
  exact ⟨rfl, rfl, rfl⟩

/-- Concrete environment whose probe finds no GPU. -/
def envNoGpuW : Env :=
  Env.mk (Except.ok []) (fun _ => Except.ok []) (fun _ _ => true) true
    none true true "node-1" (some "https://example.supabase.co") (some "anon-key") true
    (fun _ => "t0")

theorem no_gpu_fatal_exit_witness :
    detect_gpu envNoGpuW.startupProbe = none ∧
    (main envNoGpuW 1).2.2 = 1 ∧ (main envNoGpuW 1).1 = [] ∧ (main envNoGpuW 1).2.1 = [] :=
  ⟨rfl, no_gpu_fatal_exit envNoGpuW 1 rfl⟩

/-- C9: when at startup the registry credentials are absent or empty, are
the template placeholders, or the client cannot be constructed, the process
exits with status 1 having attempted no registry call — the heartbeat loop
never begins. -/
theorem registry_misconfig_fatal_exit (env : Env) (n : Nat)
    (h : truthy env.url = false ∨ truthy env.key = false ∨
         env.url = some "your_supabase_url_here" ∨ env.key = some "your_supabase_anon_key_here" ∨
         env.createOk = false) :
    (main env n).2.2 = 1 ∧ ∀ e ∈ (main env n).1, isRegistryCall e = false := by
  have hi := init_supabase_none env.url env.key env.createOk h
  unfold main
  cases hgpu : detect_gpu env.startupProbe with
  | none => exact ⟨rfl, by intro e he; simp at he⟩
  | some g =>
      rw [hi]
      exact ⟨rfl, by intro e he; simp at he⟩

/-- Concrete environment with a missing `SUPABASE_KEY`. -/
def envNoKeyW : Env :=
  Env.mk (Except.ok [GPU.mk "GeForce RTX 3080" 10240 "550.54" 0])
    (fun _ => Except.ok [GPU.mk "GeForce RTX 3080" 10240 "550.54" 0])
    (fun _ _ => true) true none true true "node-1"
    (some "https://example.supabase.co") none true (fun _ => "t0")

theorem registry_misconfig_fatal_exit_witness :
    (truthy envNoKeyW.url = false ∨ truthy envNoKeyW.key = false ∨
      envNoKeyW.url = some "your_supabase_url_here" ∨
      envNoKeyW.key = some "your_supabase_anon_key_here" ∨ envNoKeyW.createOk = false) ∧
    (main envNoKeyW 1).2.2 = 1 ∧ ∀ e ∈ (main envNoKeyW 1).1, isRegistryCall e = false :=
  ⟨Or.inr (Or.inl rfl), registry_misconfig_fatal_exit envNoKeyW 1 (Or.inr (Or.inl rfl))⟩

/-- Helper: every event of the retry loop's trace is either the upsert of
the tick's fixed payload (keyed `node_id` on the `nodes` table) or a sleep. -/
theorem retryLoop_mem (res : Nat → Bool) (d : HeartbeatData) (l : List Nat) :
    ∀ e ∈ (retryLoop res d l).2,
      e = Ev.upsert TABLE_NAME d "node_id" ∨ ∃ t, e = Ev.sleep t := by
  induction l with
  | nil => intro e he; simp [retryLoop] at he
  | cons a l ih =>
      intro e he
      simp only [retryLoop] at he
      split at he
      · simp only [List.mem_singleton] at he
        exact Or.inl he
      · split at he
        · simp only [List.mem_cons] at he
          rcases he with he | he | he
          · exact Or.inl he
          · exact Or.inr ⟨_, he⟩
          · exact ih e he
        · simp only [List.mem_singleton] at he
          exact Or.inl he

/-- Helper: every event emitted before the offline mark in the heartbeat
loop is either one of tick `i`'s upserts of its fixed payload, or a sleep. -/
theorem loop_pre_events (env : Env) (node_id : String) (gpu_info : GPUInfo) (n : Nat) :
    ∀ e ∈ (List.range n).flatMap
        (fun i => (tickRun env node_id gpu_info i).2 ++ [Ev.sleep HEARTBEAT_INTERVAL]),
      (∃ i, i < n ∧
        e = Ev.upsert TABLE_NAME
              (heartbeatData (env.loadProbe i) node_id gpu_info "online" (env.clock i))
              "node_id") ∨
      ∃ t, e = Ev.sleep t := by
  intro e he
  simp only [List.mem_flatMap, List.mem_range] at he
  obtain ⟨i, hi, he⟩ := he
  rcases List.mem_append.1 he with he | he
  · rcases retryLoop_mem _ _ _ e he with h | h
    · exact Or.inl ⟨i, hi, h⟩
    · exact Or.inr h
  · simp only [List.mem_singleton] at he
    exact Or.inr ⟨_, he⟩

/-- C5: when the stop signal arrives during the inter-tick sleep after `n`
ticks (`n ≥ 1`), the run exits with status 0 and its trace ends with the
single `update_status_offline` call: the trace decomposes as a prefix with
no update call followed by exactly that one offline mark, so the offline
mark is the last registry write-attempt and no further online delivery is
attempted afterward. -/
theorem stop_signal_single_offline (env : Env) (node_id : String) (gpu_info : GPUInfo)
    (n : Nat) (h : 1 ≤ n) :
    (run_heartbeat_loop env node_id gpu_info n).2 = 0 ∧
    ∃ pre, (run_heartbeat_loop env node_id gpu_info n).1 =
        pre ++ [update_status_offline node_id (env.clock n)] ∧
      pre.countP isUpdate = 0 := by
  refine ⟨rfl, _, rfl, ?_⟩
  rw [List.countP_eq_zero]
  intro e he
  rcases loop_pre_events env node_id gpu_info n e he with ⟨i, _, he⟩ | ⟨t, he⟩ <;>
    subst he <;> simp [isUpdate]

/-- Concrete fully-working environment. -/
def envW : Env :=
  Env.mk (Except.ok [GPU.mk "GeForce RTX 3080" 10240 "550.54" 0])
    (fun _ => Except.ok [GPU.mk "GeForce RTX 3080" 10240 "550.54" 0])
    (fun _ _ => true) true none true true "node-1"
    (some "https://example.supabase.co") (some "anon-key") true (fun _ => "t0")

theorem stop_signal_single_offline_witness :
    1 ≤ 1 ∧
    ((run_heartbeat_loop envW "node-1" gpuInfoW 1).2 = 0 ∧
     ∃ pre, (run_heartbeat_loop envW "node-1" gpuInfoW 1).1 =
         pre ++ [update_status_offline "node-1" (envW.clock 1)] ∧
       pre.countP isUpdate = 0) :=
  ⟨Nat.le_refl 1, stop_signal_single_offline envW "node-1" gpuInfoW 1 (Nat.le_refl 1)⟩

/-- C6: every upsert a run's delivery sends carries exactly the payload
fields built by `send_heartbeat` — the node identifier, the capability name
and total capacity captured once at startup (the same `gpu_info` for every
tick), the tick's load sample rounded to 2 decimal places, status
`"online"`, and the tick's timestamp — and is keyed on `node_id` in the
`nodes` table. -/
theorem heartbeat_record_shape (env : Env) (node_id : String) (gpu_info : GPUInfo)
    (n : Nat) (tbl : String) (d : HeartbeatData) (k : String)
    (h : Ev.upsert tbl d k ∈ (run_heartbeat_loop env node_id gpu_info n).1) :
    tbl = TABLE_NAME ∧ k = "node_id" ∧ d.node_id = node_id ∧
    d.gpu_name = gpu_info.name ∧ d.vram_total = gpu_info.vram_total ∧
    d.status = "online" ∧
    ∃ i, i < n ∧ d.current_load = pyRound2 (get_current_gpu_load (env.loadProbe i)) ∧
      d.last_seen = env.clock i := by
  unfold run_heartbeat_loop at h
  rcases List.mem_append.1 h with h | h
  · rcases loop_pre_events env node_id gpu_info n _ h with ⟨i, hi, he⟩ | ⟨t, he⟩
    · injection he with h1 h2 h3
      subst h1; subst h2; subst h3
      exact ⟨rfl, rfl, rfl, rfl, rfl, rfl, i, hi, rfl, rfl⟩
    · cases he
  · simp only [List.mem_singleton] at h
    cases h

theorem heartbeat_record_shape_witness :
    (Ev.upsert TABLE_NAME
        (heartbeatData (envW.loadProbe 0) "node-1" gpuInfoW "online" (envW.clock 0))
        "node_id" ∈ (run_heartbeat_loop envW "node-1" gpuInfoW 1).1) ∧
    (TABLE_NAME = TABLE_NAME ∧ "node_id" = "node_id" ∧
     (heartbeatData (envW.loadProbe 0) "node-1" gpuInfoW "online" (envW.clock 0)).node_id = "node-1" ∧
     (heartbeatData (envW.loadProbe 0) "node-1" gpuInfoW "online" (envW.clock 0)).gpu_name = gpuInfoW.name ∧
     (heartbeatData (envW.loadProbe 0) "node-1" gpuInfoW "online" (envW.clock 0)).vram_total = gpuInfoW.vram_total ∧
     (heartbeatData (envW.loadProbe 0) "node-1" gpuInfoW "online" (envW.clock 0)).status = "online" ∧
     ∃ i, i < 1 ∧
       (heartbeatData (envW.loadProbe 0) "node-1" gpuInfoW "online" (envW.clock 0)).current_load =
         pyRound2 (get_current_gpu_load (envW.loadProbe i)) ∧
       (heartbeatData (envW.loadProbe 0) "node-1" gpuInfoW "online" (envW.clock 0)).last_seen =
         envW.clock i) := by
  have hm : Ev.upsert TABLE_NAME
      (heartbeatData (envW.loadProbe 0) "node-1" gpuInfoW "online" (envW.clock 0))
      "node_id" ∈ (run_heartbeat_loop envW "node-1" gpuInfoW 1).1 := by
    simp [run_heartbeat_loop, tickRun, send_heartbeat, retryLoop, envW, MAX_RETRIES,
      List.range_succ]
  exact ⟨hm, heartbeat_record_shape envW "node-1" gpuInfoW 1 _ _ _ hm⟩

/-- C8: applying the offline-mark patch to the registry updates only the
`status` and `last_seen` fields of the record keyed by the node identifier,
leaves every other key and every other field unchanged, and regardless of
whether the update call fails the run still exits with status 0. -/
theorem offline_mark_frame_and_exit (reg : Registry) (node_id now : String)
    (r : HeartbeatData) (hr : reg node_id = some r) :
    update_status_offline node_id now =
      Ev.update TABLE_NAME (OfflinePatch.mk "offline" now) node_id ∧
    (∀ k, k ≠ node_id → applyUpdate reg (OfflinePatch.mk "offline" now) node_id k = reg k) ∧
    (∃ r2, applyUpdate reg (OfflinePatch.mk "offline" now) node_id node_id = some r2 ∧
       r2.node_id = r.node_id ∧ r2.gpu_name = r.gpu_name ∧ r2.vram_total = r.vram_total ∧
       r2.current_load = r.current_load ∧ r2.status = "offline" ∧ r2.last_seen = now) ∧
    (∀ env gpu_info n, (run_heartbeat_loop env node_id gpu_info n).2 = 0) := by
  refine ⟨rfl, ?_, ?_, fun env gpu_info n => rfl⟩
  · intro k hk
    unfold applyUpdate
    cases hregk : reg k with
    | none => rfl
    | some rk => simp [hk]
  · exact ⟨HeartbeatData.mk r.node_id r.gpu_name r.vram_total r.current_load "offline" now,
      by simp [applyUpdate, hr], rfl, rfl, rfl, rfl, rfl, rfl⟩

/-- A concrete registry record for instantiating the frame theorem. -/
def recW : HeartbeatData := HeartbeatData.mk "node-1" "GeForce RTX 3080" 10240 50 "online" "t0"

theorem offline_mark_frame_and_exit_witness :
    ((fun _ : String => some recW) "node-1" = some recW) ∧
    (update_status_offline "node-1" "t1" =
       Ev.update TABLE_NAME (OfflinePatch.mk "offline" "t1") "node-1" ∧
     (∀ k, k ≠ "node-1" →
        applyUpdate (fun _ => some recW) (OfflinePatch.mk "offline" "t1") "node-1" k =
          (fun _ : String => some recW) k) ∧
     (∃ r2, applyUpdate (fun _ => some recW) (OfflinePatch.mk "offline" "t1") "node-1" "node-1" =
          some r2 ∧
        r2.node_id = recW.node_id ∧ r2.gpu_name = recW.gpu_name ∧
        r2.vram_total = recW.vram_total ∧ r2.current_load = recW.current_load ∧
        r2.status = "offline" ∧ r2.last_seen = "t1") ∧
     (∀ env gpu_info n, (run_heartbeat_loop env "node-1" gpu_info n).2 = 0)) :=
  ⟨rfl, offline_mark_frame_and_exit (fun _ => some recW) "node-1" "t1" recW rfl⟩

end NusaCompute
